import Mathlib

/-!
Verification development for a host-language binding of a native media
player library (python-mpv style).  The repository ships the binding's
test suite; the binding core itself is modelled here, definition by
definition, from the natural-language specification of the binding
(property type table, error taxonomy, native handle wrapper, event loop
thread, observer registry, dynamic attribute facade, lifecycle manager).
-/

namespace MpvBinding

/-! ## Error taxonomy -/

/-- Modelled from the spec: the host-language exception classes used by the
error taxonomy (unknown-option raises an attribute-style error; property
format mismatches a type error; generic property errors a runtime error;
command failures a system error; allocation failures a memory error). -/
inductive ExcKind
  | memoryError
  | valueError
  | attributeError
  | typeError
  | runtimeError
  | systemError
  deriving DecidableEq

/-- Modelled from the spec: native error code for success. -/
def SUCCESS : Int := 0
/-- Modelled from the spec: native error code for an unknown option. -/
def OPTION_NOT_FOUND : Int := -5
/-- Modelled from the spec: native error code for a wrongly formatted option value. -/
def OPTION_FORMAT : Int := -6
/-- Modelled from the spec: native error code for an invalid option value. -/
def OPTION_ERROR : Int := -7
/-- Modelled from the spec: native error code for a missing property. -/
def PROPERTY_NOT_FOUND : Int := -8
/-- Modelled from the spec: native error code for a property format mismatch. -/
def PROPERTY_FORMAT : Int := -9
/-- Modelled from the spec: native error code for an unavailable property. -/
def PROPERTY_UNAVAILABLE : Int := -10
/-- Modelled from the spec: native error code for a generic property failure. -/
def PROPERTY_ERROR : Int := -11
/-- Modelled from the spec: native error code for a failed command. -/
def COMMAND : Int := -12

/-- Modelled from the spec: the fixed lookup table from native error codes to
exception kinds (`ErrorCode.EXCEPTION_DICT` in the binding).  A `none` value
means the code carries no exception mapping and is treated as success /
not-an-error.  The spec's taxonomy: unknown-option, option-format,
option-error, property-not-found, property-format, property-unavailable,
property-error, command-error, plus generic allocation failures. -/
def EXCEPTION_DICT : List (Int × Option ExcKind) :=
  [ (0, none),
    (-1, some .memoryError),
    (-2, some .memoryError),
    (-3, some .valueError),
    (-4, some .valueError),
    (OPTION_NOT_FOUND, some .attributeError),
    (OPTION_FORMAT, some .typeError),
    (OPTION_ERROR, some .valueError),
    (PROPERTY_NOT_FOUND, some .attributeError),
    (PROPERTY_FORMAT, some .typeError),
    (PROPERTY_UNAVAILABLE, some .attributeError),
    (PROPERTY_ERROR, some .runtimeError),
    (COMMAND, some .systemError) ]

/-- Modelled from the spec: look up the exception kind registered for a native
error code; codes absent from the table yield `none` (not an error). -/
def exception_for_ec (ec : Int) : Option ExcKind :=
  match EXCEPTION_DICT.find? (fun kv => kv.1 = ec) with
  | some kv => kv.2
  | none => none

/-- Modelled from the spec: turn a native return code into either success or a
raised exception (the exception carries the originating code, as the binding
passes the code as an argument of the raised exception object). -/
def raise_for_ec (ec : Int) : Except (ExcKind × Int) Unit :=
  match exception_for_ec ec with
  | some k => .error (k, ec)
  | none => .ok ()

/-! ## Property type table and value marshalling -/

/-- Modelled from the spec: the semantic type of a property in the property
type table: one of bool, int, float, string, bytes, comma-separated list, or
a raw native format code 0..9. -/
inductive PType
  | boolT
  | intT
  | floatT
  | strT
  | bytesT
  | commalist
  | rawFormat (code : Nat)
  deriving DecidableEq

/-- Modelled from the spec: host float values.  The binding never computes on
floats, it only marshals them, so they are carried opaquely; NaN is a
distinguished value that the marshalling layer must accept. -/
inductive FloatVal
  | nan
  | finite (q : ℚ)
  deriving DecidableEq

/-- Modelled from the spec: host-language values handed to / returned from the
dynamic attribute facade.  Byte strings are a type distinct from text
strings. -/
inductive HostVal
  | vBool (b : Bool)
  | vInt (n : Int)
  | vFloat (x : FloatVal)
  | vStr (s : String)
  | vBytes (bs : List Nat)
  | vList (ss : List String)
  deriving DecidableEq

/-- Modelled from the spec: the native library's tagged-union value format
(flag, integer, float, string, byte-string, delimited list). -/
inductive MpvValue
  | flag (b : Bool)
  | int64 (n : Int)
  | double (x : FloatVal)
  | string (s : String)
  | byteString (bs : List Nat)
  | stringList (ss : List String)
  | rawNode (code : Nat)
  deriving DecidableEq

/-- Modelled from the spec: marshal a host value into the native tagged-union
representation according to the property's declared type.  Flags accept only
the two boolean values; floats accept NaN and also integral host values;
strings accept arbitrary length including the empty string; byte strings are
distinct from text strings.  A mismatch yields `none` (surfaced as a
property-format error). -/
def marshal : PType → HostVal → Option MpvValue
  | .boolT, .vBool b => some (.flag b)
  | .intT, .vInt n => some (.int64 n)
  | .floatT, .vFloat x => some (.double x)
  | .floatT, .vInt n => some (.double (.finite (n : ℚ)))
  | .strT, .vStr s => some (.string s)
  | .bytesT, .vBytes bs => some (.byteString bs)
  | .commalist, .vList ss => some (.stringList ss)
  | _, _ => none

/-- Modelled from the spec: coerce a native tagged-union value read back from
the native layer into a host value of the property's declared type (the
facade's on-demand type coercion for reads). -/
def coerceRead : PType → MpvValue → Option HostVal
  | .boolT, .flag b => some (.vBool b)
  | .intT, .int64 n => some (.vInt n)
  | .floatT, .double x => some (.vFloat x)
  | .strT, .string s => some (.vStr s)
  | .bytesT, .byteString bs => some (.vBytes bs)
  | .commalist, .stringList ss => some (.vList ss)
  | _, _ => none

/-- The declared semantic type a host value inhabits. -/
def typeOfHost : HostVal → PType
  | .vBool _ => .boolT
  | .vInt _ => .intT
  | .vFloat _ => .floatT
  | .vStr _ => .strT
  | .vBytes _ => .bytesT
  | .vList _ => .commalist

/-- A declared type is a callable kind (in the test's sense: `callable(ptype)`
holds for the six constructors, not for a raw format code). -/
def callableType : PType → Bool
  | .rawFormat _ => false
  | _ => true

/-- Modelled from the spec: an attribute read.  The native layer may report no
value at all (any property can read as None); otherwise the returned tagged
value is coerced per the declared type. -/
def get_property (pt : PType) (nativeResp : Option MpvValue) : Option HostVal :=
  nativeResp.bind (coerceRead pt)

/-- Modelled from the spec (§4.1 contract): the possible outcomes of the
native property-write primitive: it succeeds or fails with one of the
property-specific codes (not found, format mismatch, unavailable, generic
property error). -/
inductive NativeSetResult
  | success
  | notFound
  | formatErr
  | unavailable
  | propError
  deriving DecidableEq

/-- The native return code of each property-write outcome. -/
def nativeCode : NativeSetResult → Int
  | .success => SUCCESS
  | .notFound => PROPERTY_NOT_FOUND
  | .formatErr => PROPERTY_FORMAT
  | .unavailable => PROPERTY_UNAVAILABLE
  | .propError => PROPERTY_ERROR

/-- Modelled from the spec: a typed property write through the facade: marshal
the host value per the declared type (a mismatch is a property-format
failure), then hand it to the native layer and map the returned code through
the error table. -/
def set_property (pt : PType) (v : HostVal) (r : NativeSetResult) :
    Except (ExcKind × Int) Unit :=
  match marshal pt v with
  | none => raise_for_ec PROPERTY_FORMAT
  | some _ => raise_for_ec (nativeCode r)

/-- The 27000-character test string. -/
def longStr : String := String.mk (List.replicate 27000 'a')

/-- The 27000-byte test byte string. -/
def longBytes : List Nat := List.replicate 27000 97

/-- Modelled from the spec: the boundary inputs exercised for each declared
type: integers 0, 1, -1; floats 0.0, 1.0, -1.0, NaN; strings empty, short,
27000-character; bytes empty, short, 27000-byte; booleans true and false. -/
def boundaryInputs : PType → List HostVal
  | .boolT => [.vBool true, .vBool false]
  | .intT => [.vInt 0, .vInt 1, .vInt (-1)]
  | .floatT => [.vFloat (.finite 0), .vFloat (.finite 1), .vFloat (.finite (-1)), .vFloat .nan]
  | .strT => [.vStr "", .vStr "foo", .vStr longStr]
  | .bytesT => [.vBytes [], .vBytes [102, 111, 111], .vBytes longBytes]
  | _ => []

/-! ## Observer registry -/

/-- Modelled from the spec: the callable object a handler reference points at.
Plain functions and closures are identified by the object they denote; a
bound method is identified by the pair (instance, underlying function), since
every attribute access on the instance manufactures a fresh bound-method
object wrapping the same pair. -/
inductive HandlerTarget
  | plainFunc (objId : Nat)
  | closure (objId : Nat)
  | boundMethod (selfId : Nat) (funcId : Nat)
  deriving DecidableEq

/-- Modelled from the spec: a host-language reference to a handler.  `refId`
is the identity of the reference object itself (a fresh bound-method object
has a fresh `refId` but the same `target`). -/
structure HandlerRef where
  refId : Nat
  target : HandlerTarget
  deriving DecidableEq

/-- Modelled from the spec: handler identity comparison — two references are
the same subscriber exactly when they denote the same callable, so two
freshly obtained references to one bound method compare as the same
subscriber. -/
def sameSubscriber (a b : HandlerRef) : Bool :=
  decide (a.target = b.target)

/-- Modelled from the spec: one ObserverEntry: property name, host callback,
internal native observer id. -/
structure ObserverEntry where
  propName : String
  handler : HandlerRef
  observerId : Nat
  deriving DecidableEq

/-- Modelled from the spec: the observer registry's bookkeeping. -/
structure Registry where
  entries : List ObserverEntry
  nextObserverId : Nat
  deriving DecidableEq

/-- The empty registry. -/
def Registry.empty : Registry := ⟨[], 0⟩

/-- Modelled from the spec: subscribe a handler to a property (the native
observer for the property is derived from the entry list: it exists exactly
while at least one entry for the property does). -/
def Registry.observe (reg : Registry) (p : String) (h : HandlerRef) : Registry :=
  { entries := reg.entries ++ [⟨p, h, reg.nextObserverId⟩],
    nextObserverId := reg.nextObserverId + 1 }

/-- The predicate picking out the entries removed by `unobserve p h`. -/
def entryMatches (p : String) (h : HandlerRef) (e : ObserverEntry) : Bool :=
  decide (e.propName = p) && sameSubscriber e.handler h

/-- Modelled from the spec: remove every entry of this subscriber for this
property; removing nothing is a no-op, never an error. -/
def Registry.unobserve (reg : Registry) (p : String) (h : HandlerRef) : Registry :=
  { reg with entries := reg.entries.filter (fun e => !entryMatches p h e) }

/-- Whether a handler is currently subscribed to a property. -/
def Registry.subscribed (reg : Registry) (p : String) (h : HandlerRef) : Bool :=
  reg.entries.any (entryMatches p h)

/-- Whether the property has a native observer registration (at least one
subscribed entry). -/
def Registry.nativelyObserved (reg : Registry) (p : String) : Bool :=
  reg.entries.any (fun e => decide (e.propName = p))

/-- Modelled from the spec: the public unobserve operation of the facade.  It
only updates the registry bookkeeping and deregisters the native observer
when the last handler for the property goes away; it raises no exception in
any case (idempotent, no-op on a non-subscribed handler). -/
def unobserve_property (reg : Registry) (p : String) (h : HandlerRef) :
    Except ExcKind Registry :=
  .ok (reg.unobserve p h)

/-- Modelled from the spec: bulk unsubscribe of one handler from all of its
properties (the decorator's `unobserve_mpv_properties`), performed as a
single atomic registry update. -/
def Registry.unobserveAll (reg : Registry) (h : HandlerRef) : Registry :=
  { reg with entries := reg.entries.filter (fun e => !sameSubscriber e.handler h) }

/-! ## Lifecycle manager and event loop -/

/-- Modelled from the spec: lifecycle states of a binding instance. -/
inductive Lifecycle
  | uninitialized
  | running
  | terminated
  deriving DecidableEq

/-- Modelled from the spec: the property values exchanged in the observation
scenarios. -/
inductive PropVal
  | pstr (s : String)
  | pbool (b : Bool)
  | pint (n : Int)
  deriving DecidableEq

/-- Modelled from the spec: an event sitting in the native event queue: either
a property-change notification carrying the value current when the change
occurred, or any other native event identified by its numeric event id with
an optional end-reason payload. -/
inductive QueuedEvent
  | change (name : String) (value : PropVal)
  | generic (eventId : Nat) (reason : Option Nat)
  deriving DecidableEq

/-- Modelled from the spec: the numeric event id of a property-change event. -/
def changeEventId : Nat := 22

/-- A delivered host callback: either an observer call `(property, value)` or
a whole-event delivery to a registered event callback. -/
inductive CallRec
  | observerCall (handler : HandlerRef) (name : String) (value : PropVal)
  | eventCall (cb : Nat) (eventId : Nat)
  deriving DecidableEq

/-- Modelled from the spec: the whole observable state of one binding
instance: lifecycle, property store, observer registry, registered event
callbacks, the pending native event queue, liveness of the event thread and
native handle, and the log of callbacks delivered so far. -/
structure MState where
  lifecycle : Lifecycle
  props : List (String × PropVal)
  registry : Registry
  eventCallbacks : List Nat
  queue : List QueuedEvent
  threadAlive : Bool
  handleAlive : Bool
  calls : List CallRec
  deriving DecidableEq

/-- The state of the world before any instance is constructed: no event
thread, no native handle. -/
def preConstructionState : MState :=
  { lifecycle := .uninitialized, props := [], registry := .empty,
    eventCallbacks := [], queue := [], threadAlive := false,
    handleAlive := false, calls := [] }

/-- Read the current value of a property from the store. -/
def getPropVal (s : MState) (p : String) : Option PropVal :=
  (s.props.find? (fun kv => decide (kv.1 = p))).map (·.2)

/-- Update the property store. -/
def updateProps (props : List (String × PropVal)) (p : String) (v : PropVal) :
    List (String × PropVal) :=
  (p, v) :: props.filter (fun kv => !decide (kv.1 = p))

/-- Modelled from the spec (§4.2): synchronous dispatch of one event: every
registered event callback receives the full event; a property-change event is
additionally routed to the registry's handlers for that property, invoked
with the property name and the coerced value. -/
def dispatchEvent (s : MState) (e : QueuedEvent) : MState :=
  match e with
  | .change name v =>
      let cbCalls := s.eventCallbacks.map (fun cb => CallRec.eventCall cb changeEventId)
      let obsCalls := (s.registry.entries.filter (fun en => decide (en.propName = name))).map
        (fun en => CallRec.observerCall en.handler name v)
      { s with calls := s.calls ++ cbCalls ++ obsCalls }
  | .generic eid _ =>
      { s with calls := s.calls ++ s.eventCallbacks.map (fun cb => CallRec.eventCall cb eid) }

/-- Dispatch a list of events in arrival order. -/
def drainLoop (s : MState) : List QueuedEvent → MState
  | [] => s
  | e :: rest => drainLoop (dispatchEvent s e) rest

/-- Modelled from the spec: the event thread catching up: every queued event
is dispatched, in arrival order, leaving the queue empty. -/
def drain (s : MState) : MState :=
  drainLoop { s with queue := [] } s.queue

/-- Modelled from the spec: teardown.  On a running instance: signal the event
thread to stop and join it (the joined thread first dispatches the events
still pending in the queue), destroy the native handle, release every
ObserverEntry, and enter the terminal TERMINATED state.  Repeated calls, and
calls on a never-started instance, are no-ops. -/
def terminate (s : MState) : MState :=
  if s.lifecycle = .running then
    let sDrained := drain s
    { sDrained with
      lifecycle := .terminated
      threadAlive := false
      handleAlive := false
      registry := .empty
      eventCallbacks := [] }
  else s

/-- Modelled from the spec: garbage-collection finalization triggers the same
deterministic teardown as an explicit `terminate()`. -/
def gcFinalize (s : MState) : MState :=
  terminate s

/-- Whether a string names a known option in the externally supplied option
table. -/
def knownOption (tbl : List String) (name : String) : Bool :=
  tbl.contains name

/-- Modelled from the spec: keyword option names are normalized by replacing
underscores with hyphens before the table lookup. -/
def normalizeName (s : String) : String :=
  String.mk (s.data.map (fun c => if c = '_' then '-' else c))

/-- A native resource action performed during construction, recorded so that
error paths can be shown to allocate nothing. -/
inductive ResAction
  | createHandle
  | applyOption (name : String)
  | startThread
  deriving DecidableEq

/-- Modelled from the spec: construction.  First every option name — the
positional flag names and the normalized keyword names — is validated against
the option table; an unrecognized name fails with an attribute-style error
before any native resource is touched (the error carries the empty action
trace).  Only then the native handle is created, the options applied, and the
event loop thread started. -/
def construct (tbl : List String) (flags : List String)
    (kwopts : List (String × PropVal)) :
    Except (ExcKind × List ResAction) (MState × List ResAction) :=
  if flags.all (knownOption tbl) &&
     kwopts.all (fun kv => knownOption tbl (normalizeName kv.1)) then
    .ok ({ lifecycle := .running
           props := (flags.map (fun f => (f, PropVal.pbool true))) ++
                    (kwopts.map (fun kv => (normalizeName kv.1, kv.2)))
           registry := .empty
           eventCallbacks := []
           queue := []
           threadAlive := true
           handleAlive := true
           calls := [] },
         [.createHandle] ++
           (flags.map ResAction.applyOption) ++
           (kwopts.map (fun kv => ResAction.applyOption (normalizeName kv.1))) ++
           [.startThread])
  else .error (.attributeError, [])

/-- How many background event handler threads of this instance exist. -/
def threadCount (s : MState) : Nat :=
  if s.threadAlive then 1 else 0

/-- Modelled from the spec: the operations the two actors (caller threads and
the native layer feeding the event queue) can perform on one instance after
construction.  `sleepDrain` stands for a synchronization point at which the
event thread has caught up with the queue (a bounded wait in the caller). -/
inductive Op
  | setP (p : String) (v : PropVal)
  | observe (p : String) (h : HandlerRef)
  | unobserve (p : String) (h : HandlerRef)
  | bulkUnobserve (h : HandlerRef)
  | registerCb (cb : Nat)
  | unregisterCb (cb : Nat)
  | nativeEvent (e : QueuedEvent)
  | sleepDrain
  | terminateOp
  | gcOp

/-- Modelled from the spec: the effect of each operation.  All operations
other than teardown require a RUNNING instance (after termination the handle
is gone and the thread joined, so nothing happens any more); a property write
that actually changes the value of a natively observed property enqueues a
change event carrying the new value. -/
def applyOp (s : MState) : Op → MState
  | .setP p v =>
      if s.lifecycle = .running then
        let sSet := { s with props := updateProps s.props p v }
        if s.registry.nativelyObserved p && !decide (getPropVal s p = some v) then
          { sSet with queue := sSet.queue ++ [.change p v] }
        else sSet
      else s
  | .observe p h =>
      if s.lifecycle = .running then { s with registry := s.registry.observe p h } else s
  | .unobserve p h =>
      if s.lifecycle = .running then { s with registry := s.registry.unobserve p h } else s
  | .bulkUnobserve h =>
      if s.lifecycle = .running then { s with registry := s.registry.unobserveAll h } else s
  | .registerCb cb =>
      if s.lifecycle = .running then { s with eventCallbacks := s.eventCallbacks ++ [cb] } else s
  | .unregisterCb cb =>
      if s.lifecycle = .running then
        { s with eventCallbacks := s.eventCallbacks.filter (fun c => !decide (c = cb)) }
      else s
  | .nativeEvent e =>
      if s.lifecycle = .running then { s with queue := s.queue ++ [e] } else s
  | .sleepDrain =>
      if s.lifecycle = .running then drain s else s
  | .terminateOp => terminate s
  | .gcOp => gcFinalize s

/-- Run a sequence of operations. -/
def applyOps (s : MState) (ops : List Op) : MState :=
  ops.foldl applyOp s

/-! ## Concrete scenario material -/

/-- Modelled from the spec: a representative static option table (the
catalogue of names is supplied externally; these are the names the scenarios
use). -/
def optionTable : List String :=
  ["video", "no-video", "fs", "fullscreen", "cursor-autohide",
   "cursor-autohide-fs-only", "loop", "mute", "osd-level", "deinterlace"]

/-- The state a successful construction produces (falling back to the
pre-construction state on a construction error). -/
def constructedOr (tbl : List String) (flags : List String)
    (kwopts : List (String × PropVal)) : MState :=
  match construct tbl flags kwopts with
  | .ok (s, _) => s
  | .error _ => preConstructionState

/-- A plain-function handler (the mock handler of the observation tests). -/
def hLoop : HandlerRef := ⟨100, .plainFunc 1⟩

/-- A closure handler (the decorated `foo` of the decorator test). -/
def fooRef : HandlerRef := ⟨200, .closure 2⟩

/-- A first reference to the bound method `t.t`. -/
def boundRef1 : HandlerRef := ⟨300, .boundMethod 7 9⟩

/-- A freshly obtained second reference to the same bound method `t.t`: a
different reference object wrapping the same instance and function. -/
def boundRef2 : HandlerRef := ⟨301, .boundMethod 7 9⟩

/-- The state right after `MPV()` with no options. -/
def mstate0 : MState := constructedOr optionTable [] []

/-! ## Helper lemmas about the machine -/

theorem applyOp_of_not_running (s : MState) (h : ¬s.lifecycle = Lifecycle.running)
    (op : Op) : applyOp s op = s := by
  cases op <;> simp [applyOp, terminate, gcFinalize, h]

theorem applyOps_of_not_running (ops : List Op) :
    ∀ s : MState, ¬s.lifecycle = Lifecycle.running → applyOps s ops = s := by
  induction ops with
  | nil => intro s _; rfl
  | cons o rest ih =>
      intro s h
      show applyOps (applyOp s o) rest = s
      rw [applyOp_of_not_running s h o, ih s h]

theorem terminate_not_running (s : MState) :
    ¬(terminate s).lifecycle = Lifecycle.running := by
  unfold terminate
  split
  · simp
  · assumption

theorem applyOp_setP_noObs (s : MState) (p : String) (v : PropVal)
    (he : s.registry.entries = []) (hq : s.queue = []) :
    (applyOp s (.setP p v)).calls = s.calls ∧
    (applyOp s (.setP p v)).registry.entries = [] ∧
    (applyOp s (.setP p v)).queue = [] := by
  have hobs : s.registry.nativelyObserved p = false := by
    unfold Registry.nativelyObserved
    rw [he]
    rfl
  simp only [applyOp]
  split
  · rw [hobs]
    simp [he, hq]
  · exact ⟨rfl, he, hq⟩

theorem applyOps_setPs (l : List Op)
    (hl : ∀ o ∈ l, ∃ p v, o = Op.setP p v) :
    ∀ s : MState, s.registry.entries = [] → s.queue = [] →
    (applyOps s l).calls = s.calls ∧
    (applyOps s l).registry.entries = [] ∧
    (applyOps s l).queue = [] := by
  induction l with
  | nil => intro s he hq; exact ⟨rfl, he, hq⟩
  | cons o rest ih =>
      intro s he hq
      obtain ⟨p, v, rfl⟩ := hl o (List.mem_cons_self o rest)
      have h1 := applyOp_setP_noObs s p v he hq
      have h2 := ih (fun o ho => hl o (List.mem_cons_of_mem _ ho))
        (applyOp s (.setP p v)) h1.2.1 h1.2.2
      show (applyOps (applyOp s (.setP p v)) rest).calls = s.calls ∧ _ ∧ _
      exact ⟨h2.1.trans h1.1, h2.2.1, h2.2.2⟩

theorem terminate_emptyQueue (s : MState) (hq : s.queue = []) :
    (terminate s).calls = s.calls := by
  unfold terminate
  split
  · simp [drain, hq, drainLoop]
  · rfl

theorem setPs_then_terminate (s : MState) (he : s.registry.entries = [])
    (hq : s.queue = []) (l : List Op)
    (hl : ∀ o ∈ l, ∃ p v, o = Op.setP p v) :
    (terminate (applyOps s l)).calls = s.calls := by
  have h := applyOps_setPs l hl s he hq
  rw [terminate_emptyQueue _ h.2.2, h.1]

theorem marshal_boundary (pt : PType) (v : HostVal) (hv : v ∈ boundaryInputs pt) :
    (marshal pt v).isSome = true := by
  cases pt <;> simp [boundaryInputs] at hv <;>
    rcases hv with rfl | rfl | rfl | rfl <;> simp [marshal]

/-! ## Claim theorems -/

/-- Claim C9: the error-code lookup table maps each native error code to at
most one exception kind (its keys are pairwise distinct), and any code with
no registered mapping is treated as success: `raise_for_ec` does not raise
for it. -/
theorem claim_C9_error_table :
    (EXCEPTION_DICT.map Prod.fst).Nodup ∧
    ∀ ec : Int, exception_for_ec ec = none → raise_for_ec ec = .ok () := by
  refine ⟨by decide, fun ec h => ?_⟩
  unfold raise_for_ec
  rw [h]

/-- Witness for C9: the unmapped code -99 raises nothing. -/
theorem claim_C9_witness : raise_for_ec (-99) = .ok () :=
  claim_C9_error_table.2 (-99) (by decide)

/-- Claim C10: an attribute read may return None even for a property whose
declared type is a concrete type such as int; and whenever the read returns a
non-None value for a declared type of one of the callable kinds, the runtime
type of the value equals the declared type. -/
theorem claim_C10_read_types :
    get_property .intT none = none ∧
    ∀ (pt : PType) (v : MpvValue) (hv : HostVal), callableType pt = true →
      get_property pt (some v) = some hv → typeOfHost hv = pt := by
  refine ⟨rfl, fun pt v hv hc hg => ?_⟩
  cases pt <;> cases v <;> simp [get_property, coerceRead] at hg <;>
    simp [← hg, typeOfHost]

/-- Witness for C10: reading an int-typed property that yields a native int64
produces a host int. -/
theorem claim_C10_witness : typeOfHost (.vInt 5) = PType.intT :=
  claim_C10_read_types.2 .intT (.int64 5) (.vInt 5) (by decide) (by decide)

/-- Claim C7: for every declared type and every boundary input of that type,
and for every outcome of the native property-write primitive, a typed write
either succeeds or fails with exactly one of the four mapped property errors
(PROPERTY_UNAVAILABLE, PROPERTY_ERROR, PROPERTY_FORMAT, PROPERTY_NOT_FOUND);
it never produces an unhandled failure. -/
theorem claim_C7_boundary_writes :
    ∀ (pt : PType) (v : HostVal) (r : NativeSetResult), v ∈ boundaryInputs pt →
    set_property pt v r = .ok () ∨
    ∃ k ec, set_property pt v r = .error (k, ec) ∧
      (ec = PROPERTY_NOT_FOUND ∨ ec = PROPERTY_FORMAT ∨
       ec = PROPERTY_UNAVAILABLE ∨ ec = PROPERTY_ERROR) := by
  intro pt v r hv
  have hm := marshal_boundary pt v hv
  rcases hmm : marshal pt v with _ | m
  · rw [hmm] at hm
    simp at hm
  · have hset : set_property pt v r = raise_for_ec (nativeCode r) := by
      unfold set_property
      rw [hmm]
    rw [hset]
    cases r with
    | success => exact .inl rfl
    | notFound =>
        exact .inr ⟨.attributeError, PROPERTY_NOT_FOUND, rfl, .inl rfl⟩
    | formatErr =>
        exact .inr ⟨.typeError, PROPERTY_FORMAT, rfl, .inr (.inl rfl)⟩
    | unavailable =>
        exact .inr ⟨.attributeError, PROPERTY_UNAVAILABLE, rfl, .inr (.inr (.inl rfl))⟩
    | propError =>
        exact .inr ⟨.runtimeError, PROPERTY_ERROR, rfl, .inr (.inr (.inr rfl))⟩

/-- Witness for C7: writing the boundary int 0 with a succeeding native layer
succeeds. -/
theorem claim_C7_witness : set_property .intT (.vInt 0) .success = .ok () := by
  rcases claim_C7_boundary_writes .intT (.vInt 0) .success (by decide) with h | h
  · exact h
  · obtain ⟨k, ec, he, _⟩ := h
    rw [show set_property .intT (.vInt 0) .success = .ok () from rfl] at he
    cases he

/-- Claim C2: `unobserve_property` never raises — for any registry, property
and handler it returns a result; when the handler is not subscribed it is a
no-op returning the registry unchanged; and repeating it is idempotent. -/
theorem claim_C2_unobserve_never_raises :
    ∀ (reg : Registry) (p : String) (h : HandlerRef),
    unobserve_property reg p h = .ok (reg.unobserve p h) ∧
    (reg.subscribed p h = false → unobserve_property reg p h = .ok reg) ∧
    unobserve_property (reg.unobserve p h) p h = .ok (reg.unobserve p h) := by
  intro reg p h
  refine ⟨rfl, fun hs => ?_, ?_⟩
  · have hent : ∀ e ∈ reg.entries, entryMatches p h e = false := by
      intro e he
      unfold Registry.subscribed at hs
      rw [List.any_eq_false] at hs
      simpa using hs e he
    have : reg.unobserve p h = reg := by
      unfold Registry.unobserve
      have : reg.entries.filter (fun e => !entryMatches p h e) = reg.entries :=
        List.filter_eq_self.mpr (fun e he => by simp [hent e he])
      rw [this]
    rw [unobserve_property, this]
  · unfold unobserve_property
    congr 1
    unfold Registry.unobserve
    simp only
    congr 1
    exact List.filter_eq_self.mpr
      (fun e he => (List.mem_filter.mp he).2)

/-- Witness for C2: unobserving from the empty registry raises nothing and
leaves the registry unchanged. -/
theorem claim_C2_witness :
    unobserve_property Registry.empty "loop" hLoop = .ok Registry.empty :=
  (claim_C2_unobserve_never_raises Registry.empty "loop" hLoop).2.1 (by decide)

/-- Claim C3: constructing with any unrecognized option name — positional
flag form or keyword form — fails with an attribute-style error, and the
error path performs no native resource action at all (in particular neither
`createHandle` nor `startThread`). -/
theorem claim_C3_unknown_option :
    ∀ (tbl flags : List String) (kwopts : List (String × PropVal)),
    ((∃ f ∈ flags, knownOption tbl f = false) ∨
     (∃ kv ∈ kwopts, knownOption tbl (normalizeName kv.1) = false)) →
    construct tbl flags kwopts = .error (.attributeError, []) := by
  intro tbl flags kwopts h
  unfold construct
  split
  · rename_i hall
    exfalso
    rw [Bool.and_eq_true, List.all_eq_true, List.all_eq_true] at hall
    rcases h with ⟨f, hf, hk⟩ | ⟨kv, hkv, hk⟩
    · rw [hall.1 f hf] at hk
      cases hk
    · rw [hall.2 kv hkv] at hk
      cases hk
  · rfl

/-- Witness for C3: the unknown flag of the lifecycle test fails construction
with no resource action. -/
theorem claim_C3_witness :
    construct optionTable ["this-option-does-not-exist"] [] =
      .error (.attributeError, []) :=
  claim_C3_unknown_option optionTable ["this-option-does-not-exist"] []
    (.inl ⟨"this-option-does-not-exist", by decide, by decide⟩)

/-- Claim C4: no background event handler thread exists before construction;
exactly one exists after a successful construction; and none exists once the
instance is terminated, whether explicitly via `terminate` or implicitly via
garbage-collection finalization. -/
theorem claim_C4_thread_lifecycle :
    threadCount preConstructionState = 0 ∧
    (∀ (tbl flags : List String) (kwopts : List (String × PropVal))
       (s : MState) (acts : List ResAction),
       construct tbl flags kwopts = .ok (s, acts) → threadCount s = 1) ∧
    (∀ s : MState, s.lifecycle = .running → threadCount (terminate s) = 0) ∧
    (∀ s : MState, s.lifecycle = .running → threadCount (gcFinalize s) = 0) := by
  refine ⟨by decide, fun tbl flags kwopts s acts h => ?_, fun s h => ?_, fun s h => ?_⟩
  · unfold construct at h
    split at h
    · simp only [Except.ok.injEq, Prod.mk.injEq] at h
      rw [← h.1]
      rfl
    · cases h
  · unfold terminate
    rw [if_pos h]
    rfl
  · unfold gcFinalize terminate
    rw [if_pos h]
    rfl

/-- Witness for C4: the no-option construction yields one thread, and both
teardown paths leave none. -/
theorem claim_C4_witness :
    threadCount mstate0 = 1 ∧ threadCount (terminate mstate0) = 0 ∧
    threadCount (gcFinalize mstate0) = 0 :=
  ⟨claim_C4_thread_lifecycle.2.1 optionTable [] [] mstate0
      [.createHandle, .startThread] rfl,
   claim_C4_thread_lifecycle.2.2.1 mstate0 (by decide),
   claim_C4_thread_lifecycle.2.2.2 mstate0 (by decide)⟩

/-! ## Scenario states for the temporal claims -/

/-- The playback scenario of the event-callback test: construct with the
`no-video` flag, register event callback 0, let the native layer emit the
file-loaded, idle and playback-end events, wait for playback (the event
thread catches up), and unregister the callback. -/
def c1BeforeTerminate : MState :=
  applyOps (constructedOr optionTable ["no-video"] [])
    [.registerCb 0, .nativeEvent (.generic 6 none), .nativeEvent (.generic 9 none),
     .nativeEvent (.generic 7 (some 4)), .sleepDrain, .unregisterCb 0]

/-- The event-callback scenario state right after `terminate()` returned. -/
def c1Final : MState := terminate c1BeforeTerminate

/-- The observation scenario of C5: construct with `loop='inf'`, observe
`loop`, set it to `'no'` and back to `'inf'`, let the event thread catch up,
then unobserve. -/
def c5AfterUnobserve : MState :=
  applyOps (constructedOr optionTable [] [("loop", .pstr "inf")])
    [.observe "loop" hLoop, .setP "loop" (.pstr "no"), .setP "loop" (.pstr "inf"),
     .sleepDrain, .unobserve "loop" hLoop]

/-- The two observer deliveries the C5 scenario must produce. -/
def c5Expected : List CallRec :=
  [.observerCall hLoop "loop" (.pstr "no"), .observerCall hLoop "loop" (.pstr "inf")]

/-- The decorator scenario of C6: construct, set `loop='inf'` and
`mute=true`, subscribe the decorated handler to `loop` and then `mute`
(stacked decorators), toggle both twice, let the event thread catch up, then
bulk-unsubscribe the handler from all of its properties in one atomic step. -/
def c6AfterBulk : MState :=
  applyOps (constructedOr optionTable [] [])
    [.setP "loop" (.pstr "inf"), .setP "mute" (.pbool true),
     .observe "loop" fooRef, .observe "mute" fooRef,
     .setP "mute" (.pbool false), .setP "loop" (.pstr "no"),
     .setP "mute" (.pbool true), .setP "loop" (.pstr "inf"),
     .sleepDrain, .bulkUnobserve fooRef]

/-- The four observer deliveries the C6 scenario must produce. -/
def c6Expected : List CallRec :=
  [.observerCall fooRef "mute" (.pbool false), .observerCall fooRef "loop" (.pstr "no"),
   .observerCall fooRef "mute" (.pbool true), .observerCall fooRef "loop" (.pstr "inf")]

/-- The bound-method scenario of C8: observe `loop` through one reference to
the bound method, toggle the property, let the event thread catch up, then
unobserve through a freshly obtained second reference to the same bound
method. -/
def c8AfterUnobserve : MState :=
  applyOps (constructedOr optionTable [] [])
    [.setP "loop" (.pstr "inf"), .observe "loop" boundRef1,
     .setP "loop" (.pstr "no"), .setP "loop" (.pstr "inf"),
     .sleepDrain, .unobserve "loop" boundRef2]

/-- The two observer deliveries the C8 scenario must produce. -/
def c8Expected : List CallRec :=
  [.observerCall boundRef1 "loop" (.pstr "no"),
   .observerCall boundRef1 "loop" (.pstr "inf")]

theorem setPs_of_pairs (l : List (String × PropVal)) :
    ∀ o ∈ l.map (fun pv => Op.setP pv.1 pv.2), ∃ p v, o = Op.setP p v := by
  intro o ho
  rw [List.mem_map] at ho
  obtain ⟨pv, _, rfl⟩ := ho
  exact ⟨pv.1, pv.2, rfl⟩

theorem setPs_of_strings (vals : List String) (p : String) :
    ∀ o ∈ vals.map (fun v => Op.setP p (.pstr v)), ∃ q w, o = Op.setP q w := by
  intro o ho
  rw [List.mem_map] at ho
  obtain ⟨v, _, rfl⟩ := ho
  exact ⟨p, .pstr v, rfl⟩

/-- Claim C1: after `terminate()` has returned, no operation whatsoever —
caller calls, native events, event-thread activity — delivers another
callback: a terminated instance is a fixed point of every operation.  In the
concrete playback scenario, the registered event callback has received the
file-loaded, idle and playback-end events exactly once each by the time
`terminate()` returns, and receives nothing further afterwards. -/
theorem claim_C1_no_callbacks_after_terminate :
    (∀ (s : MState) (ops : List Op), applyOps (terminate s) ops = terminate s) ∧
    c1Final.calls = [.eventCall 0 6, .eventCall 0 9, .eventCall 0 7] ∧
    (∀ ops : List Op, (applyOps c1Final ops).calls = c1Final.calls) := by
  have habs : ∀ (s : MState) (ops : List Op), applyOps (terminate s) ops = terminate s :=
    fun s ops => applyOps_of_not_running ops (terminate s) (terminate_not_running s)
  exact ⟨habs, by decide, fun ops => congrArg MState.calls (habs c1BeforeTerminate ops)⟩

/-- Claim C5: in the `loop='inf'` observation scenario the handler has
received exactly the calls `('loop','no')` then `('loop','inf')`, in that
order and with no duplicates, once `terminate()` has synchronized with the
event thread; and after `unobserve_property` any further sequence of writes
to `loop` produces no additional call to the handler. -/
theorem claim_C5_observe_loop :
    (terminate c5AfterUnobserve).calls = c5Expected ∧
    ∀ vals : List String,
      (terminate (applyOps c5AfterUnobserve
        (vals.map (fun v => Op.setP "loop" (.pstr v))))).calls = c5Expected := by
  have he : c5AfterUnobserve.registry.entries = [] := by decide
  have hq : c5AfterUnobserve.queue = [] := by decide
  have hc : c5AfterUnobserve.calls = c5Expected := by decide
  refine ⟨?_, fun vals => ?_⟩
  · rw [terminate_emptyQueue _ hq, hc]
  · rw [setPs_then_terminate c5AfterUnobserve he hq _ (setPs_of_strings vals "loop"), hc]

/-- Claim C6: the handler subscribed to both properties through the stacking
decorator receives exactly the four toggles before the bulk unsubscribe, and
after the single atomic `unobserve_mpv_properties` step it receives zero
further callbacks for any property, no matter what sequence of property
writes follows. -/
theorem claim_C6_bulk_unobserve :
    c6AfterBulk.calls = c6Expected ∧
    ∀ changes : List (String × PropVal),
      (terminate (applyOps c6AfterBulk
        (changes.map (fun pv => Op.setP pv.1 pv.2)))).calls = c6Expected := by
  have he : c6AfterBulk.registry.entries = [] := by decide
  have hq : c6AfterBulk.queue = [] := by decide
  have hc : c6AfterBulk.calls = c6Expected := by decide
  refine ⟨hc, fun changes => ?_⟩
  rw [setPs_then_terminate c6AfterBulk he hq _ (setPs_of_pairs changes), hc]

/-- Claim C8: two distinct references to the same bound method compare as the
same subscriber, so unobserving through a freshly obtained reference removes
the subscription made through the first reference: the registry is empty
afterwards, the handler received exactly the two changes made while
subscribed, and any further writes to the property deliver nothing more. -/
theorem claim_C8_bound_method_identity :
    boundRef1 ≠ boundRef2 ∧
    sameSubscriber boundRef1 boundRef2 = true ∧
    c8AfterUnobserve.registry.entries = [] ∧
    (terminate c8AfterUnobserve).calls = c8Expected ∧
    ∀ vals : List String,
      (terminate (applyOps c8AfterUnobserve
        (vals.map (fun v => Op.setP "loop" (.pstr v))))).calls = c8Expected := by
  have he : c8AfterUnobserve.registry.entries = [] := by decide
  have hq : c8AfterUnobserve.queue = [] := by decide
  have hc : c8AfterUnobserve.calls = c8Expected := by decide
  refine ⟨by decide, by decide, he, ?_, fun vals => ?_⟩
  · rw [terminate_emptyQueue _ hq, hc]
  · rw [setPs_then_terminate c8AfterUnobserve he hq _ (setPs_of_strings vals "loop"), hc]

/-- Witness for C1: a drain attempt and a property write after termination
deliver nothing. -/
theorem claim_C1_witness :
    (applyOps c1Final [Op.sleepDrain, Op.setP "loop" (.pstr "no")]).calls = c1Final.calls :=
  claim_C1_no_callbacks_after_terminate.2.2 [Op.sleepDrain, Op.setP "loop" (.pstr "no")]

/-- Witness for C5: two further writes to `loop` after the unobserve leave
the delivered calls at exactly the expected two. -/
theorem claim_C5_witness :
    (terminate (applyOps c5AfterUnobserve
      (["no", "inf"].map (fun v => Op.setP "loop" (.pstr v))))).calls = c5Expected :=
  claim_C5_observe_loop.2 ["no", "inf"]

/-- Witness for C6: a further mute toggle after the bulk unsubscribe leaves
the delivered calls at exactly the expected four. -/
theorem claim_C6_witness :
    (terminate (applyOps c6AfterBulk
      ([("mute", PropVal.pbool false)].map (fun pv => Op.setP pv.1 pv.2)))).calls = c6Expected :=
  claim_C6_bulk_unobserve.2 [("mute", .pbool false)]

/-- Witness for C8: two further writes to `loop` after the bound-method
unobserve leave the delivered calls at exactly the expected two. -/
theorem claim_C8_witness :
    (terminate (applyOps c8AfterUnobserve
      (["no", "inf"].map (fun v => Op.setP "loop" (.pstr v))))).calls = c8Expected :=
  claim_C8_bound_method_identity.2.2.2.2 ["no", "inf"]

end MpvBinding
